import Mathlib

/-!
# Exam-Project: OTP mail dispatch and reception handlers

Shallow embedding of `src/config/sendmail.js`,
`src/controllers/reception.controller.js` and
`src/validations/reception.validation.js`.

Asynchronous functions are modelled by the way their promise settles together
with the ordered list of effects they performed on their collaborators.
-/

namespace ExamProject

/-! ## `src/config/sendmail.js` -/

/-- The object handed to `transport.sendMail` (lines 18-22). The field `to` of
the source is `to_` here, `to` being a reserved word. -/
structure MailMessage where
  to_ : String
  subject : String
  text : String
deriving DecidableEq, Repr

/-- Effects of `sendMail` on its collaborators, in program order. -/
inductive Effect where
  | totpGenerate (secret : String)
  | transportSendMail (message : MailMessage)
  | consoleLog (line : String)
deriving DecidableEq, Repr

/-- How the promise of an `async` function settles. `resolved none` is a
promise resolved with `undefined`. -/
inductive Settled (α : Type) where
  | resolved (value : Option α)
  | rejected (message : String)
deriving DecidableEq, Repr

/-- The collaborators `sendMail` reads: the `OTPKEY` entry of `process.env`
(`none` when the variable is not set), `totp.generate` at the moment of the
call, and the nodemailer transport, which either delivers or throws an `Error`
with a message. -/
structure Collaborators where
  OTPKEY : Option String
  generate : String → String
  transportSendMail : MailMessage → Except String Unit

/-- JavaScript `a || d` for `a` a string or `undefined`: `d` is taken when `a`
is falsy, that is `undefined` or the empty string. -/
def jsOr (a : Option String) (d : String) : String :=
  match a with
  | some s => if s = "" then d else s
  | none => d

/-- Line 15: `process.env.OTPKEY || "otpsecret"`. -/
def sekretKey (c : Collaborators) : String :=
  jsOr c.OTPKEY "otpsecret"

/-- The message built on lines 18-22 for a recipient and a code. -/
def otpMessage (email otp : String) : MailMessage :=
  { to_ := email
    subject := "One time password"
    text := "Code for verify account <h1>" ++ otp ++ "</h1>" }

/-- The `try` block of `sendMail` (lines 15-24): the value it returns or the
message of the error it throws, with the effects performed up to that point. -/
def sendMailTry (c : Collaborators) (email : String) : Except String String × List Effect :=
  let key := sekretKey c ++ email
  let otp := c.generate key
  let message := otpMessage email otp
  match c.transportSendMail message with
  | .ok _ => (.ok otp, [.totpGenerate key, .transportSendMail message])
  | .error err => (.error err, [.totpGenerate key, .transportSendMail message])

/-- The function `sendMail` (lines 13-28): the `try` block, and on a thrown
error the `catch` block, which logs `error.message` and falls off the end of
the function. -/
def sendMail (c : Collaborators) (email : String) : Settled String × List Effect :=
  match sendMailTry c email with
  | (.ok otp, effects) => (.resolved (some otp), effects)
  | (.error err, effects) => (.resolved none, effects ++ [.consoleLog err])

/-- The secrets `totp.generate` was called with, in order. -/
def generateCalls : List Effect → List String
  | [] => []
  | .totpGenerate s :: rest => s :: generateCalls rest
  | _ :: rest => generateCalls rest

/-- The messages handed to the transport, in order. -/
def sentMessages : List Effect → List MailMessage
  | [] => []
  | .transportSendMail m :: rest => m :: sentMessages rest
  | _ :: rest => sentMessages rest

/-- The lines written with `console.log`, in order. -/
def loggedLines : List Effect → List String
  | [] => []
  | .consoleLog l :: rest => l :: loggedLines rest
  | _ :: rest => loggedLines rest

/-- The secret as the specification words it: the value of `OTPKEY` when it is
set, the literal `"otpsecret"` when it is absent. -/
def specSecret (otpkey : Option String) : String :=
  match otpkey with
  | some s => s
  | none => "otpsecret"

/-- A transport that delivers every message. -/
def deliveringTransport : MailMessage → Except String Unit :=
  fun _ => .ok ()

/-- A transport that fails on every message with the given error message. -/
def failingTransport (err : String) : MailMessage → Except String Unit :=
  fun _ => .error err

/-- A stand-in generator for concrete evaluations: the code is the length of
the secret, written in decimal. -/
def lengthGenerator : String → String :=
  fun s => toString s.length

/-! ## The time-based generator configured on line 4 -/

/-- The options object assigned to `totp.options`. -/
structure TotpOptions where
  step : Nat
  digits : Nat
deriving DecidableEq, Repr

/-- Line 4: `totp.options = { step: 600, digits: 5 }`. -/
def totpOptions : TotpOptions :=
  { step := 600, digits := 5 }

/-- JavaScript `s.padStart(n, c)` for a one-character pad string. -/
def padStart (s : String) (n : Nat) (c : Char) : String :=
  ⟨List.replicate (n - s.length) c ++ s.data⟩

/-- Modelled from the spec: the counter of section 4.1,
`floor(currentUnixTimeSeconds / stepSeconds)`; the library computing it
(`otplib`) is not part of the sources. -/
def timeCounter (opts : TotpOptions) (epochSeconds : Nat) : Nat :=
  epochSeconds / opts.step

/-- Modelled from the spec: `totp.generate` of `otplib`, which is not part of
the sources. Section 4.1 applies an HMAC-based one-time-password algorithm to
the counter under the key material and formats the truncated value to a fixed
number of decimal digits, left-padded with zeros. The keyed hash followed by
dynamic truncation is the parameter `truncated`. -/
def totpGenerate (truncated : String → Nat → Nat) (opts : TotpOptions)
    (epochSeconds : Nat) (secret : String) : String :=
  padStart (toString (truncated secret (timeCounter opts epochSeconds) % 10 ^ opts.digits))
    opts.digits '0'

/-- Modelled from the spec: the code derived for a given counter, used by
verification to re-derive codes of neighbouring time buckets. -/
def totpAtCounter (truncated : String → Nat → Nat) (opts : TotpOptions)
    (counter : Nat) (secret : String) : String :=
  padStart (toString (truncated secret counter % 10 ^ opts.digits)) opts.digits '0'

/-- Modelled from the spec: `verify(email, submittedCode)` of section 4.2, whose
handler (`verifyOTP` of the user controller) is not part of the sources. The
expected code is recomputed from the key material `secret ++ email` for the
current time bucket and for the buckets at most `window` steps away, and
compared with the submitted code. -/
def verifyOTP (truncated : String → Nat → Nat) (opts : TotpOptions) (window : Nat)
    (otpkey : Option String) (epochSeconds : Nat) (email submittedCode : String) : Bool :=
  let key := jsOr otpkey "otpsecret" ++ email
  let counter := timeCounter opts epochSeconds
  (List.range (window + 1)).any fun d =>
    totpAtCounter truncated opts (counter - d) key == submittedCode
      || totpAtCounter truncated opts (counter + d) key == submittedCode

/-- The collaborators of `sendMail` at a given moment, with the generator of
line 4 reading the clock at `epochSeconds`. -/
def collaboratorsAt (truncated : String → Nat → Nat) (otpkey : Option String)
    (epochSeconds : Nat) (transport : MailMessage → Except String Unit) : Collaborators :=
  { OTPKEY := otpkey
    generate := totpGenerate truncated totpOptions epochSeconds
    transportSendMail := transport }

/-- A stand-in for the keyed hash in concrete evaluations: the length of the
key plus the counter. -/
def lengthTruncated : String → Nat → Nat :=
  fun key counter => key.length + counter

/-! ## `src/validations/reception.validation.js` -/

/-- A property value of a JSON request body. Numbers are the integers; arrays
and nested objects, which none of the schemas below look into, are
`compound`. -/
inductive JsValue where
  | null
  | bool (b : Bool)
  | number (n : Int)
  | string (s : String)
  | compound
deriving DecidableEq, Repr

/-- A request body parsed from JSON: an object, as its properties in
`Object.keys` order. -/
abbrev Body := List (String × JsValue)

/-- The value types the two schemas are built from. -/
inductive JoiType where
  | number
  | date
  | stringValid (allowed : List String)
deriving DecidableEq, Repr

/-- One key of a `Joi.object({...})` schema: its name, its type and whether it
is `.required()`. -/
structure JoiKey where
  name : String
  type : JoiType
  required : Bool
deriving DecidableEq, Repr

/-- Lines 3-8: the schema `ReceptionPOST`. -/
def ReceptionPOST : List JoiKey :=
  [ { name := "centerId", type := .number, required := true },
    { name := "filialId", type := .number, required := false },
    { name := "majorId", type := .number, required := true },
    { name := "visitDate", type := .date, required := false } ]

/-- Lines 10-12: the schema `ReceptionPATCH`. -/
def ReceptionPATCH : List JoiKey :=
  [ { name := "status", type := .stringValid ["pending", "visit", "not visit"],
      required := true } ]

/-- What the validation library does with one defined value under
`Joi.number()` and under `Joi.date()`: the converted value, or the text that
follows the label in the error message. The library is not part of the
sources, so both are parameters. -/
structure JoiScalars where
  number : JsValue → Except String JsValue
  date : JsValue → Except String JsValue

/-- The label of a key as it opens an error message: the name in double
quotes. -/
def label (name : String) : String :=
  "\"" ++ name ++ "\""

/-- The text `[a, b, c]` listing the allowed values in an error message. -/
def allowedList (allowed : List String) : String :=
  "[" ++ ", ".intercalate allowed ++ "]"

/-- Validation of one defined value against a key. A type restricted with
`.valid(...)` accepts exactly the listed values, compared before any type
check. -/
def validateValue (joi : JoiScalars) (k : JoiKey) (v : JsValue) : Except String JsValue :=
  match k.type with
  | .number =>
    match joi.number v with
    | .ok v' => .ok v'
    | .error text => .error (label k.name ++ " " ++ text)
  | .date =>
    match joi.date v with
    | .ok v' => .ok v'
    | .error text => .error (label k.name ++ " " ++ text)
  | .stringValid allowed =>
    match v with
    | .string s =>
      if s ∈ allowed then .ok v
      else .error (label k.name ++ " must be one of " ++ allowedList allowed)
    | _ => .error (label k.name ++ " must be one of " ++ allowedList allowed)

/-- Replace the value of a property, keeping the order of the properties. -/
def setProperty (body : Body) (name : String) (v : JsValue) : Body :=
  body.map fun p => if p.1 = name then (p.1, v) else p

/-- The keys of the schema, in declaration order: a missing key is an error
when required and skipped otherwise; a present key is validated and its
converted value stored. The first error ends the validation. -/
def validateKeys (joi : JoiScalars) : List JoiKey → Body → Except String Body
  | [], body => .ok body
  | k :: rest, body =>
    match body.lookup k.name with
    | none =>
      if k.required then .error (label k.name ++ " is required")
      else validateKeys joi rest body
    | some v =>
      match validateValue joi k v with
      | .error message => .error message
      | .ok v' => validateKeys joi rest (setProperty body k.name v')

/-- The first property of the body that the schema does not declare. -/
def firstUnknown (schema : List JoiKey) (body : Body) : Option String :=
  (body.find? fun p => !(schema.map JoiKey.name).contains p.1).map Prod.fst

/-- `schema.validate(body)` for a schema built with `Joi.object({...})`: the
declared keys first, then the properties the schema does not declare, which
are not allowed. The result is the error message or the validated value. -/
def validate (joi : JoiScalars) (schema : List JoiKey) (body : Body) : Except String Body :=
  match validateKeys joi schema body with
  | .error message => .error message
  | .ok value =>
    match firstUnknown schema body with
    | some name => .error (label name ++ " is not allowed")
    | none => .ok value

/-! ## `src/controllers/reception.controller.js` -/

/-- A stored record: its primary key and its columns. -/
structure Row where
  id : Nat
  columns : Body
deriving DecidableEq, Repr

/-- The ORM calls the handlers make on a model, given by name, over a
datastore of type `σ`. A call returns or throws an error with a message; a
writing call also returns the datastore after the write. The models are not
part of the sources. -/
structure Orm (σ : Type) where
  findByPk : String → σ → String → Except String (Option Row)
  create : String → σ → Body → Except String (Row × σ)
  update : String → σ → Body → String → Except String σ
  destroy : String → σ → String → Except String σ

/-- The payload of `res.json(...)`. -/
inductive Payload where
  | message (text : String)
  | data (row : Row)
deriving DecidableEq, Repr

/-- The response written by `res.status(...).json(...)`. -/
structure Response where
  status : Nat
  json : Payload
deriving DecidableEq, Repr

/-- Lines 1-5: the names the module of the controller binds, all of them by
`import`. -/
def moduleBindings : List String :=
  ["Filial", "Major", "Reception", "User", "ReceptionPOST", "ReceptionPATCH"]

/-- Evaluation of an identifier in the module: the name when it is bound, a
`ReferenceError` with its message otherwise. -/
def resolveIdentifier (name : String) : Except String String :=
  if name ∈ moduleBindings then .ok name else .error (name ++ " is not defined")

/-- Lines 66-78: the handler `create`. The result is the response and the
datastore after the request. -/
def create {σ : Type} (joi : JoiScalars) (orm : Orm σ) (db : σ) (body : Body) : Response × σ :=
  match validate joi ReceptionPOST body with
  | .error message => ({ status := 401, json := .message message }, db)
  | .ok value =>
    match orm.create "Reception" db value with
    | .ok (data, db') => ({ status := 201, json := .data data }, db')
    | .error message => ({ status := 500, json := .message message }, db)

/-- Lines 79-95: the handler `update`. -/
def update {σ : Type} (joi : JoiScalars) (orm : Orm σ) (db : σ) (id : String) (body : Body) :
    Response × σ :=
  match validate joi ReceptionPATCH body with
  | .error message => ({ status := 401, json := .message message }, db)
  | .ok value =>
    match orm.findByPk "Reception" db id with
    | .error message => ({ status := 500, json := .message message }, db)
    | .ok none => ({ status := 404, json := .message "Not Fount By id" }, db)
    | .ok (some _) =>
      match orm.update "Reception" db value id with
      | .ok db' => ({ status := 200, json := .message "Update" }, db')
      | .error message => ({ status := 500, json := .message message }, db)

/-- Lines 96-108: the handler `remove`. The record is looked up on the model
named `Field` and destroyed on the model named `Reception`; an identifier that
is not bound throws, and the `catch` block answers 500 with the message. -/
def remove {σ : Type} (orm : Orm σ) (db : σ) (id : String) : Response × σ :=
  match resolveIdentifier "Field" with
  | .error message => ({ status := 500, json := .message message }, db)
  | .ok field =>
    match orm.findByPk field db id with
    | .error message => ({ status := 500, json := .message message }, db)
    | .ok none => ({ status := 404, json := .message "Not Found filed" }, db)
    | .ok (some _) =>
      match resolveIdentifier "Reception" with
      | .error message => ({ status := 500, json := .message message }, db)
      | .ok reception =>
        match orm.destroy reception db id with
        | .ok db' => ({ status := 200, json := .message "delete" }, db')
        | .error message => ({ status := 500, json := .message message }, db)

/-- An in-memory datastore for concrete evaluations: the rows of the
receptions. -/
abbrev MemoryDb := List Row

/-- An in-memory ORM over `MemoryDb` that never throws: keys are compared in
decimal, a created row takes the next free key. -/
def memoryOrm : Orm MemoryDb :=
  { findByPk := fun _ db id => .ok (db.find? fun r => toString r.id == id)
    create := fun _ db value =>
      let row : Row := { id := db.length + 1, columns := value }
      .ok (row, db ++ [row])
    update := fun _ db value id =>
      .ok (db.map fun r => if toString r.id == id then { r with columns := value } else r)
    destroy := fun _ db id => .ok (db.filter fun r => !(toString r.id == id)) }

/-- Stand-in scalar checks for concrete evaluations: numbers pass
`Joi.number()` and `Joi.date()`, everything else fails. -/
def integerScalars : JoiScalars :=
  { number := fun v =>
      match v with
      | .number n => .ok (.number n)
      | _ => .error "must be a number"
    date := fun v =>
      match v with
      | .number n => .ok (.number n)
      | _ => .error "must be a valid date" }

/-- The request body documented for `POST /api/reseption`
(`src/routes/resaption.routes.js`, lines 126-139): the required integers
`userId`, `filialId` and `majorId`. -/
def documentedPostBody : Body :=
  [("userId", .number 2), ("filialId", .number 1), ("majorId", .number 5)]

/-- The responses documented for `POST /api/reseption`
(`src/routes/resaption.routes.js`, lines 140-146). -/
def documentedPostStatuses : List Nat := [201, 400, 500]

/-- The responses documented for `PATCH /api/reseption/{id}`
(`src/routes/resaption.routes.js`, lines 189-197). -/
def documentedPatchStatuses : List Nat := [200, 400, 404, 500]

/-- The values documented for `status` in the body of
`PATCH /api/reseption/{id}` (`src/routes/resaption.routes.js`, line 182). -/
def documentedStatusValues : List String := ["pending", "study", "finished"]

/-- The body `{status}` of a `PATCH` request. -/
def statusBody (status : String) : Body :=
  [("status", .string status)]

end ExamProject

/-! ## Theorems -/

namespace ExamProject

/-! ### `sendMail` -/

theorem sendMail_of_ok (c : Collaborators) (email : String) (u : Unit)
    (h : c.transportSendMail (otpMessage email (c.generate (sekretKey c ++ email))) = .ok u) :
    sendMail c email =
      (.resolved (some (c.generate (sekretKey c ++ email))),
        [.totpGenerate (sekretKey c ++ email),
          .transportSendMail (otpMessage email (c.generate (sekretKey c ++ email)))]) := by
  simp only [sendMail, sendMailTry, h]

theorem sendMail_of_error (c : Collaborators) (email err : String)
    (h : c.transportSendMail (otpMessage email (c.generate (sekretKey c ++ email))) = .error err) :
    sendMail c email =
      (.resolved none,
        [.totpGenerate (sekretKey c ++ email),
          .transportSendMail (otpMessage email (c.generate (sekretKey c ++ email))),
          .consoleLog err]) := by
  simp only [sendMail, sendMailTry, h, List.cons_append, List.nil_append]

theorem sendMail_effects_start (c : Collaborators) (email : String) :
    ∃ tail, (sendMail c email).2 =
      .totpGenerate (sekretKey c ++ email) ::
        .transportSendMail (otpMessage email (c.generate (sekretKey c ++ email))) :: tail := by
  cases h : c.transportSendMail (otpMessage email (c.generate (sekretKey c ++ email))) with
  | ok u => exact ⟨[], by rw [sendMail_of_ok c email u h]⟩
  | error err => exact ⟨[.consoleLog err], by rw [sendMail_of_error c email err h]⟩

theorem generateCalls_sendMail (c : Collaborators) (email : String) :
    generateCalls (sendMail c email).2 = [sekretKey c ++ email] := by
  cases h : c.transportSendMail (otpMessage email (c.generate (sekretKey c ++ email))) with
  | ok u => rw [sendMail_of_ok c email u h]; rfl
  | error err => rw [sendMail_of_error c email err h]; rfl

theorem sentMessages_sendMail (c : Collaborators) (email : String) :
    sentMessages (sendMail c email).2 =
      [otpMessage email (c.generate (sekretKey c ++ email))] := by
  cases h : c.transportSendMail (otpMessage email (c.generate (sekretKey c ++ email))) with
  | ok u => rw [sendMail_of_ok c email u h]; rfl
  | error err => rw [sendMail_of_error c email err h]; rfl

theorem sekretKey_of_nonempty (c : Collaborators) (s : String) (h : c.OTPKEY = some s)
    (hs : s ≠ "") : sekretKey c = s := by
  simp [sekretKey, jsOr, h, hs]

theorem sekretKey_of_falsy (c : Collaborators) (h : c.OTPKEY = none ∨ c.OTPKEY = some "") :
    sekretKey c = "otpsecret" := by
  rcases h with h | h <;> simp [sekretKey, jsOr, h]

/-- C1, as stated, fails when `OTPKEY` is set to the empty string: the
generator is called on `"otpsecret" ++ e`, not on the value of `OTPKEY`
followed by `e`. -/
theorem sendMail_key_empty_OTPKEY :
    generateCalls (sendMail ⟨some "", lengthGenerator, deliveringTransport⟩ "a@example.com").2
        = ["otpsecreta@example.com"] ∧
      generateCalls (sendMail ⟨some "", lengthGenerator, deliveringTransport⟩ "a@example.com").2
        ≠ [specSecret (some "") ++ "a@example.com"] := by
  decide

/-- C1, amended: `sendMail` calls the generator exactly once, on `S ++ e`, and
the message it dispatches carries the code generated from `S ++ e`, where `S`
is the value of `OTPKEY` when it is set to a non-empty string and the literal
`"otpsecret"` when it is absent or empty. -/
theorem sendMail_key_material (c : Collaborators) (e : String) :
    (∀ s, c.OTPKEY = some s → s ≠ "" →
        generateCalls (sendMail c e).2 = [s ++ e] ∧
          sentMessages (sendMail c e).2 = [otpMessage e (c.generate (s ++ e))]) ∧
      (c.OTPKEY = none ∨ c.OTPKEY = some "" →
        generateCalls (sendMail c e).2 = ["otpsecret" ++ e] ∧
          sentMessages (sendMail c e).2 = [otpMessage e (c.generate ("otpsecret" ++ e))]) := by
  refine ⟨fun s h hs => ?_, fun h => ?_⟩
  · have hk := sekretKey_of_nonempty c s h hs
    rw [generateCalls_sendMail, sentMessages_sendMail, hk]
    exact ⟨rfl, rfl⟩
  · have hk := sekretKey_of_falsy c h
    rw [generateCalls_sendMail, sentMessages_sendMail, hk]
    exact ⟨rfl, rfl⟩

/-- C1, amended, at `OTPKEY = "k"` and at an absent `OTPKEY`. -/
theorem sendMail_key_material_witness :
    (generateCalls (sendMail ⟨some "k", lengthGenerator, deliveringTransport⟩ "a@b.c").2
        = ["k" ++ "a@b.c"] ∧
      sentMessages (sendMail ⟨some "k", lengthGenerator, deliveringTransport⟩ "a@b.c").2
        = [otpMessage "a@b.c" (lengthGenerator ("k" ++ "a@b.c"))]) ∧
    (generateCalls (sendMail ⟨none, lengthGenerator, deliveringTransport⟩ "a@b.c").2
        = ["otpsecret" ++ "a@b.c"] ∧
      sentMessages (sendMail ⟨none, lengthGenerator, deliveringTransport⟩ "a@b.c").2
        = [otpMessage "a@b.c" (lengthGenerator ("otpsecret" ++ "a@b.c"))]) :=
  ⟨(sendMail_key_material ⟨some "k", lengthGenerator, deliveringTransport⟩ "a@b.c").1 "k" rfl
      (by decide),
    (sendMail_key_material ⟨none, lengthGenerator, deliveringTransport⟩ "a@b.c").2 (Or.inl rfl)⟩

/-- C2: when the transport fails on the message, `sendMail` does not
propagate the error: its promise resolves (with `undefined`), it is not
rejected, and the last thing it did was to log the message of the error, the
only line it logged. -/
theorem sendMail_swallows_transport_failure (c : Collaborators) (e err : String)
    (h : c.transportSendMail (otpMessage e (c.generate (sekretKey c ++ e))) = .error err) :
    (sendMail c e).1 = .resolved none ∧
      (∀ m, (sendMail c e).1 ≠ .rejected m) ∧
      (sendMail c e).2.getLast? = some (.consoleLog err) ∧
      loggedLines (sendMail c e).2 = [err] := by
  rw [sendMail_of_error c e err h]
  refine ⟨rfl, fun m hm => ?_, rfl, rfl⟩
  cases hm

/-- C2 at a transport that fails with `"Invalid login"`. -/
theorem sendMail_swallows_transport_failure_witness :
    (sendMail ⟨none, lengthGenerator, failingTransport "Invalid login"⟩ "a@b.c").1
        = .resolved none ∧
      (∀ m, (sendMail ⟨none, lengthGenerator, failingTransport "Invalid login"⟩ "a@b.c").1
        ≠ .rejected m) ∧
      (sendMail ⟨none, lengthGenerator, failingTransport "Invalid login"⟩ "a@b.c").2.getLast?
        = some (.consoleLog "Invalid login") ∧
      loggedLines (sendMail ⟨none, lengthGenerator, failingTransport "Invalid login"⟩ "a@b.c").2
        = ["Invalid login"] :=
  sendMail_swallows_transport_failure ⟨none, lengthGenerator, failingTransport "Invalid login"⟩
    "a@b.c" "Invalid login" rfl

/-- C3, as stated, fails: with the same secret and generator, `sendMail`
yields the code when the transport delivers and `undefined` when it fails. -/
theorem sendMail_result_depends_on_transport :
    (sendMail ⟨none, lengthGenerator, deliveringTransport⟩ "a@b.c").1 = .resolved (some "14") ∧
      (sendMail ⟨none, lengthGenerator, failingTransport "Invalid login"⟩ "a@b.c").1
        = .resolved none ∧
      (sendMail ⟨none, lengthGenerator, deliveringTransport⟩ "a@b.c").1
        ≠ (sendMail ⟨none, lengthGenerator, failingTransport "Invalid login"⟩ "a@b.c").1 := by
  decide

/-- C3, amended: the code is generated before dispatch is attempted, and the
message handed to the transport carries that code whether the transport then
delivers or fails; `sendMail` yields the code to its caller when the transport
delivers and yields `undefined` when it fails. -/
theorem sendMail_code_before_dispatch (c : Collaborators) (e : String) :
    (∃ tail, (sendMail c e).2 =
        .totpGenerate (sekretKey c ++ e) ::
          .transportSendMail (otpMessage e (c.generate (sekretKey c ++ e))) :: tail) ∧
      (∀ u, c.transportSendMail (otpMessage e (c.generate (sekretKey c ++ e))) = .ok u →
        (sendMail c e).1 = .resolved (some (c.generate (sekretKey c ++ e)))) ∧
      (∀ err, c.transportSendMail (otpMessage e (c.generate (sekretKey c ++ e))) = .error err →
        (sendMail c e).1 = .resolved none) := by
  refine ⟨sendMail_effects_start c e, fun u h => ?_, fun err h => ?_⟩
  · rw [sendMail_of_ok c e u h]
  · rw [sendMail_of_error c e err h]

/-- C3, amended, at a delivering and at a failing transport. -/
theorem sendMail_code_before_dispatch_witness :
    (sendMail ⟨none, lengthGenerator, deliveringTransport⟩ "a@b.c").1
        = .resolved (some (lengthGenerator (sekretKey ⟨none, lengthGenerator, deliveringTransport⟩
            ++ "a@b.c"))) ∧
      (sendMail ⟨none, lengthGenerator, failingTransport "Invalid login"⟩ "a@b.c").1
        = .resolved none :=
  ⟨(sendMail_code_before_dispatch ⟨none, lengthGenerator, deliveringTransport⟩ "a@b.c").2.1 ()
      rfl,
    (sendMail_code_before_dispatch ⟨none, lengthGenerator, failingTransport "Invalid login"⟩
      "a@b.c").2.2 "Invalid login" rfl⟩

/-- C4: when the transport delivers, `sendMail` sends exactly one message,
addressed to `e`, with subject `"One time password"` and a body embedding the
generated code, and returns that same code. -/
theorem sendMail_delivers_code (c : Collaborators) (e : String) (u : Unit)
    (h : c.transportSendMail (otpMessage e (c.generate (sekretKey c ++ e))) = .ok u) :
    ∃ otp m,
      otp = c.generate (sekretKey c ++ e) ∧
        sentMessages (sendMail c e).2 = [m] ∧
        m.to_ = e ∧
        m.subject = "One time password" ∧
        m.text = "Code for verify account <h1>" ++ otp ++ "</h1>" ∧
        (sendMail c e).1 = .resolved (some otp) := by
  refine ⟨c.generate (sekretKey c ++ e), otpMessage e (c.generate (sekretKey c ++ e)), rfl,
    sentMessages_sendMail c e, rfl, rfl, rfl, ?_⟩
  rw [sendMail_of_ok c e u h]

/-- C4 at a delivering transport. -/
theorem sendMail_delivers_code_witness :
    ∃ otp m,
      otp = lengthGenerator (sekretKey ⟨none, lengthGenerator, deliveringTransport⟩ ++ "a@b.c") ∧
        sentMessages (sendMail ⟨none, lengthGenerator, deliveringTransport⟩ "a@b.c").2 = [m] ∧
        m.to_ = "a@b.c" ∧
        m.subject = "One time password" ∧
        m.text = "Code for verify account <h1>" ++ otp ++ "</h1>" ∧
        (sendMail ⟨none, lengthGenerator, deliveringTransport⟩ "a@b.c").1
          = .resolved (some otp) :=
  sendMail_delivers_code ⟨none, lengthGenerator, deliveringTransport⟩ "a@b.c" () rfl

/-! ### The generated code -/

theorem digitChar_isDigit : ∀ k, k < 10 → (Nat.digitChar k).isDigit = true := by
  decide

theorem toDigitsCore_isDigit (fuel : Nat) :
    ∀ (n : Nat) (acc : List Char), (∀ ch ∈ acc, ch.isDigit = true) →
      ∀ ch ∈ Nat.toDigitsCore 10 fuel n acc, ch.isDigit = true := by
  induction fuel with
  | zero => intro n acc hacc; simpa [Nat.toDigitsCore] using hacc
  | succ fuel ih =>
    intro n acc hacc
    have hcons : ∀ ch ∈ Nat.digitChar (n % 10) :: acc, ch.isDigit = true := by
      intro ch hch
      rcases List.mem_cons.mp hch with rfl | hch
      · exact digitChar_isDigit _ (Nat.mod_lt _ (by decide))
      · exact hacc ch hch
    simp only [Nat.toDigitsCore]
    split
    · exact hcons
    · exact ih _ _ hcons

theorem repr_isDigit (n : Nat) : ∀ ch ∈ (toString n).data, ch.isDigit = true := by
  show ∀ ch ∈ (Nat.repr n).data, ch.isDigit = true
  simp only [Nat.repr, Nat.toDigits, List.asString]
  exact toDigitsCore_isDigit _ _ _ (by simp)

theorem repr_length_le (n e : Nat) (he : 0 < e) (h : n < 10 ^ e) : (toString n).length ≤ e :=
  Nat.repr_length n e he h

theorem padStart_length (s : String) (n : Nat) (c : Char) (h : s.length ≤ n) :
    (padStart s n c).length = n := by
  simp only [padStart, String.length, List.length_append, List.length_replicate]
  simp only [String.length] at h
  omega

theorem padStart_isDigit (s : String) (n : Nat) (hs : ∀ ch ∈ s.data, ch.isDigit = true) :
    ∀ ch ∈ (padStart s n '0').data, ch.isDigit = true := by
  intro ch hch
  simp only [padStart, List.mem_append] at hch
  rcases hch with hch | hch
  · rw [List.eq_of_mem_replicate hch]; decide
  · exact hs ch hch

theorem totpAtCounter_timeCounter (truncated : String → Nat → Nat) (opts : TotpOptions)
    (t : Nat) (secret : String) :
    totpAtCounter truncated opts (timeCounter opts t) secret
      = totpGenerate truncated opts t secret := rfl

theorem collaboratorsAt_bucket (truncated : String → Nat → Nat) (otpkey : Option String)
    (transport : MailMessage → Except String Unit) (t1 t2 : Nat) (h : t1 / 600 = t2 / 600) :
    collaboratorsAt truncated otpkey t1 transport
      = collaboratorsAt truncated otpkey t2 transport := by
  have hgen : totpGenerate truncated totpOptions t1 = totpGenerate truncated totpOptions t2 := by
    funext secret
    simp only [totpGenerate, timeCounter, totpOptions, h]
  simp only [collaboratorsAt, hgen]

/-- C5: for every secret, email and time the generated code has exactly 5
characters, each a decimal digit: it is the truncated value reduced modulo
`10 ^ 5`, written in decimal and left-padded with zeros to 5 characters; the
generator is configured with step 600 and 5 digits. -/
theorem totpGenerate_five_digits (truncated : String → Nat → Nat) (t : Nat)
    (secret email : String) :
    (totpGenerate truncated totpOptions t (secret ++ email)).length = 5 ∧
      (∀ ch ∈ (totpGenerate truncated totpOptions t (secret ++ email)).data,
        ch.isDigit = true) ∧
      totpGenerate truncated totpOptions t (secret ++ email)
        = padStart (toString (truncated (secret ++ email) (t / 600) % 10 ^ 5)) 5 '0' ∧
      totpOptions.step = 600 ∧ totpOptions.digits = 5 := by
  refine ⟨?_, ?_, rfl, rfl, rfl⟩
  · exact padStart_length _ _ _
      (repr_length_le _ 5 (by decide) (Nat.mod_lt _ (by decide)))
  · exact padStart_isDigit _ _ (repr_isDigit _)

/-- C6: within one 600-second bucket the derivation is deterministic: for
times `t1`, `t2` with `t1 / 600 = t2 / 600` the generator returns the same
code for `s ++ e`, and `sendMail` settles the same way and performs the same
effects at both times. -/
theorem totpGenerate_same_bucket (truncated : String → Nat → Nat) (s e : String)
    (t1 t2 : Nat) (h : t1 / 600 = t2 / 600) :
    totpGenerate truncated totpOptions t1 (s ++ e)
        = totpGenerate truncated totpOptions t2 (s ++ e) ∧
      ∀ transport,
        sendMail (collaboratorsAt truncated (some s) t1 transport) e
          = sendMail (collaboratorsAt truncated (some s) t2 transport) e := by
  refine ⟨?_, fun transport => ?_⟩
  · simp only [totpGenerate, timeCounter, totpOptions, h]
  · rw [collaboratorsAt_bucket truncated (some s) transport t1 t2 h]

/-- C6 at the times 1200 and 1799, both in bucket 2. -/
theorem totpGenerate_same_bucket_witness :
    totpGenerate lengthTruncated totpOptions 1200 ("otpsecret" ++ "a@example.com")
        = totpGenerate lengthTruncated totpOptions 1799 ("otpsecret" ++ "a@example.com") ∧
      ∀ transport,
        sendMail (collaboratorsAt lengthTruncated (some "otpsecret") 1200 transport)
            "a@example.com"
          = sendMail (collaboratorsAt lengthTruncated (some "otpsecret") 1799 transport)
            "a@example.com" :=
  totpGenerate_same_bucket lengthTruncated "otpsecret" "a@example.com" 1200 1799 (by decide)

/-- C7: a code yielded by `sendMail` for `e` at time `t1` is accepted by
verification for `e` at any time `t2` of the same 600-second bucket, whatever
the tolerance window; verification re-derives the code from the key material
`secret ++ e`. -/
theorem verifyOTP_sendMail (truncated : String → Nat → Nat) (otpkey : Option String)
    (window : Nat) (transport : MailMessage → Except String Unit) (e code : String)
    (t1 t2 : Nat) (hbucket : t1 / 600 = t2 / 600)
    (hsent : (sendMail (collaboratorsAt truncated otpkey t1 transport) e).1
      = .resolved (some code)) :
    verifyOTP truncated totpOptions window otpkey t2 e code = true ∧
      code = totpGenerate truncated totpOptions t2 (jsOr otpkey "otpsecret" ++ e) := by
  have hcode : code = totpGenerate truncated totpOptions t2 (jsOr otpkey "otpsecret" ++ e) := by
    rw [collaboratorsAt_bucket truncated otpkey transport t1 t2 hbucket] at hsent
    cases h : (collaboratorsAt truncated otpkey t2 transport).transportSendMail
        (otpMessage e ((collaboratorsAt truncated otpkey t2 transport).generate
          (sekretKey (collaboratorsAt truncated otpkey t2 transport) ++ e))) with
    | ok u =>
      rw [sendMail_of_ok _ e u h] at hsent
      simp only [Settled.resolved.injEq, Option.some.injEq] at hsent
      exact hsent.symm
    | error err =>
      rw [sendMail_of_error _ e err h] at hsent
      simp at hsent
  refine ⟨?_, hcode⟩
  simp only [verifyOTP, List.any_eq_true]
  refine ⟨0, List.mem_range.mpr (Nat.succ_pos _), ?_⟩
  simp only [Nat.sub_zero, Nat.add_zero, totpAtCounter_timeCounter, Bool.or_self, beq_iff_eq]
  exact hcode.symm

/-- C7 with generation at time 1200 and verification at time 1799. -/
theorem verifyOTP_sendMail_witness :
    verifyOTP lengthTruncated totpOptions 0 none 1799 "a@example.com" "00024" = true ∧
      "00024" = totpGenerate lengthTruncated totpOptions 1799
        (jsOr none "otpsecret" ++ "a@example.com") :=
  verifyOTP_sendMail lengthTruncated none 0 deliveringTransport "a@example.com" "00024"
    1200 1799 (by decide) (by decide)

/-! ### The reception handlers -/

theorem create_of_invalid {σ : Type} (joi : JoiScalars) (orm : Orm σ) (db : σ) (body : Body)
    (message : String) (h : validate joi ReceptionPOST body = .error message) :
    create joi orm db body = ({ status := 401, json := .message message }, db) := by
  simp only [create, h]

theorem update_of_invalid {σ : Type} (joi : JoiScalars) (orm : Orm σ) (db : σ) (id : String)
    (body : Body) (message : String) (h : validate joi ReceptionPATCH body = .error message) :
    update joi orm db id body = ({ status := 401, json := .message message }, db) := by
  simp only [update, h]

theorem mem_of_lookup (body : Body) (name : String) (v : JsValue)
    (h : body.lookup name = some v) : (name, v) ∈ body := by
  induction body with
  | nil => simp at h
  | cons p rest ih =>
    obtain ⟨k, w⟩ := p
    by_cases hk : name = k
    · subst hk
      simp only [List.lookup_cons, beq_self_eq_true, Option.some.injEq] at h
      subst h
      exact List.mem_cons_self _ _
    · have hne : (name == k) = false := by simpa using hk
      simp only [List.lookup_cons, hne] at h
      exact List.mem_cons_of_mem _ (ih h)

theorem firstUnknown_userId (body : Body) (v : JsValue) (h : body.lookup "userId" = some v) :
    ∃ name, firstUnknown ReceptionPOST body = some name := by
  have hmem := mem_of_lookup body "userId" v h
  have hsome : (body.find? fun p =>
      !(ReceptionPOST.map JoiKey.name).contains p.1).isSome = true := by
    rw [List.find?_isSome]
    exact ⟨("userId", v), hmem, show (!(ReceptionPOST.map JoiKey.name).contains "userId") = true by
      decide⟩
  obtain ⟨p, hp⟩ := Option.isSome_iff_exists.mp hsome
  exact ⟨p.1, by simp only [firstUnknown, hp, Option.map_some']⟩

theorem validate_userId_rejected (joi : JoiScalars) (body : Body) (v : JsValue)
    (h : body.lookup "userId" = some v) :
    ∃ message, validate joi ReceptionPOST body = .error message := by
  obtain ⟨name, hname⟩ := firstUnknown_userId body v h
  unfold validate
  cases validateKeys joi ReceptionPOST body with
  | error message => exact ⟨message, rfl⟩
  | ok value => exact ⟨label name ++ " is not allowed", by simp only [hname]⟩

/-- C8: the handler `remove` answers 500 with the message
`"Field is not defined"` and leaves the datastore as it was, for every ORM,
datastore and id: here for the id of an existing reception, for an id without
a reception, and in general. -/
theorem remove_answers_500 :
    remove memoryOrm [{ id := 1, columns := [] }] "1"
        = ({ status := 500, json := .message "Field is not defined" },
            [{ id := 1, columns := [] }]) ∧
      remove memoryOrm [{ id := 1, columns := [] }] "2"
        = ({ status := 500, json := .message "Field is not defined" },
            [{ id := 1, columns := [] }]) ∧
      ∀ (σ : Type) (orm : Orm σ) (db : σ) (id : String),
        remove orm db id = ({ status := 500, json := .message "Field is not defined" }, db) :=
  ⟨rfl, rfl, fun _ _ _ _ => rfl⟩

/-- C9: the handler `create` answers the documented body (integers `userId`,
`filialId`, `majorId`) with 401 and the message `"centerId" is required`,
creating nothing; no body carrying `userId` is answered with 201. -/
theorem create_rejects_documented_body :
    create integerScalars memoryOrm [] documentedPostBody
        = ({ status := 401, json := .message "\"centerId\" is required" }, []) ∧
      (∀ (σ : Type) (joi : JoiScalars) (orm : Orm σ) (db : σ),
        create joi orm db documentedPostBody
          = ({ status := 401, json := .message "\"centerId\" is required" }, db)) ∧
      ∀ (σ : Type) (joi : JoiScalars) (orm : Orm σ) (db : σ) (body : Body) (v : JsValue),
        body.lookup "userId" = some v →
          (create joi orm db body).1.status = 401 ∧ (create joi orm db body).2 = db := by
  refine ⟨by decide, fun _ _ _ _ => rfl, fun σ joi orm db body v h => ?_⟩
  obtain ⟨message, hmessage⟩ := validate_userId_rejected joi body v h
  rw [create_of_invalid joi orm db body message hmessage]
  exact ⟨rfl, rfl⟩

/-- C10: on a body that fails validation (here the empty object) `create` and
`update` answer 401, a status that is not among the documented ones, with the
validation message and without writing; in general every body that fails
validation is answered with 401, the validation message and no write. -/
theorem invalid_body_answered_401 :
    create integerScalars memoryOrm [{ id := 1, columns := [] }] []
        = ({ status := 401, json := .message "\"centerId\" is required" },
            [{ id := 1, columns := [] }]) ∧
      update integerScalars memoryOrm [{ id := 1, columns := [] }] "1" []
        = ({ status := 401, json := .message "\"status\" is required" },
            [{ id := 1, columns := [] }]) ∧
      401 ∉ documentedPostStatuses ∧ 401 ∉ documentedPatchStatuses ∧
      ∀ (σ : Type) (joi : JoiScalars) (orm : Orm σ) (db : σ) (id : String) (body : Body)
        (message : String),
        (validate joi ReceptionPOST body = .error message →
          create joi orm db body = ({ status := 401, json := .message message }, db)) ∧
        (validate joi ReceptionPATCH body = .error message →
          update joi orm db id body = ({ status := 401, json := .message message }, db)) := by
  refine ⟨by decide, by decide, by decide, by decide, fun σ joi orm db id body message => ?_⟩
  exact ⟨create_of_invalid joi orm db body message, update_of_invalid joi orm db id body message⟩

theorem update_statusBody_rejected {σ : Type} (joi : JoiScalars) (orm : Orm σ) (db : σ)
    (id status : String) (h : status ∈ documentedStatusValues) (hne : status ≠ "pending") :
    update joi orm db id (statusBody status)
      = ({ status := 401,
           json := .message "\"status\" must be one of [pending, visit, not visit]" }, db) := by
  simp only [documentedStatusValues, List.mem_cons, List.mem_singleton, List.not_mem_nil,
    or_false] at h
  rcases h with h | h | h
  · exact absurd h hne
  · subst h; rfl
  · subst h; rfl

theorem update_pending {σ : Type} (joi : JoiScalars) (orm : Orm σ) (db : σ) (id : String) :
    update joi orm db id (statusBody "pending")
      = match orm.findByPk "Reception" db id with
        | .error message => ({ status := 500, json := .message message }, db)
        | .ok none => ({ status := 404, json := .message "Not Fount By id" }, db)
        | .ok (some _) =>
          match orm.update "Reception" db (statusBody "pending") id with
          | .ok db' => ({ status := 200, json := .message "Update" }, db')
          | .error message => ({ status := 500, json := .message message }, db) := rfl

/-- C11: the handler `update` answers the documented bodies `{status: "study"}`
and `{status: "finished"}` with 401 and the message
`"status" must be one of [pending, visit, not visit]`, applying nothing,
whether or not a reception has the id; a body without `status` is answered
with 401 `"status" is required`. Of the documented values only `"pending"`
is accepted: it is applied and answered with 200 when the reception exists,
and answered with 404 when none has that id. -/
theorem update_rejects_documented_status :
    update integerScalars memoryOrm [{ id := 1, columns := [] }] "1" (statusBody "study")
        = ({ status := 401,
             json := .message "\"status\" must be one of [pending, visit, not visit]" },
            [{ id := 1, columns := [] }]) ∧
      update integerScalars memoryOrm [{ id := 1, columns := [] }] "1" (statusBody "finished")
        = ({ status := 401,
             json := .message "\"status\" must be one of [pending, visit, not visit]" },
            [{ id := 1, columns := [] }]) ∧
      update integerScalars memoryOrm [{ id := 1, columns := [] }] "2" (statusBody "study")
        = ({ status := 401,
             json := .message "\"status\" must be one of [pending, visit, not visit]" },
            [{ id := 1, columns := [] }]) ∧
      update integerScalars memoryOrm [{ id := 1, columns := [] }] "1" [("userId", .number 2)]
        = ({ status := 401, json := .message "\"status\" is required" },
            [{ id := 1, columns := [] }]) ∧
      (∀ (σ : Type) (joi : JoiScalars) (orm : Orm σ) (db : σ) (id status : String),
        status ∈ documentedStatusValues → status ≠ "pending" →
          update joi orm db id (statusBody status)
            = ({ status := 401,
                 json := .message "\"status\" must be one of [pending, visit, not visit]" },
                db)) ∧
      update integerScalars memoryOrm [{ id := 1, columns := [] }] "1" (statusBody "pending")
        = ({ status := 200, json := .message "Update" },
            [{ id := 1, columns := statusBody "pending" }]) ∧
      ∀ (σ : Type) (joi : JoiScalars) (orm : Orm σ) (db : σ) (id : String),
        orm.findByPk "Reception" db id = .ok none →
          update joi orm db id (statusBody "pending")
            = ({ status := 404, json := .message "Not Fount By id" }, db) := by
  refine ⟨by decide, by decide, by decide, by decide, ?_, by decide, ?_⟩
  · intro σ joi orm db id status h hne
    exact update_statusBody_rejected joi orm db id status h hne
  · intro σ joi orm db id h
    rw [update_pending joi orm db id, h]

end ExamProject
